import Mathlib

/-!
Formal model of the SensESP-PeetBrosWind wind-instrument decoder
(`src/main.cpp`), a shallow embedding of the pulse-capture interrupt
handlers and of the periodic decode routine `calcWindSpeedAndDir`.

Conventions of the embedding:
* C `unsigned long` (32-bit) values are modelled as nonnegative `Int`;
  every unsigned operation that can wrap is written with an explicit
  `.emod U32`, where `U32 = 2 ^ 32`.
* C `long` / `int` arithmetic on this target is 32-bit; for every value
  reachable in the decode path the intermediate results stay well inside
  the 32-bit range (the rotation rate is bounded by `100000000 / 10001 <
  10000` for any debounced pulse interval), so signed arithmetic is
  modelled with exact `Int` arithmetic.  C signed division and remainder
  truncate toward zero and are modelled by `Int.tdiv` / `Int.tmod`;
  C unsigned division and remainder on in-range values are `Int./`
  (on nonnegative arguments) and `Int.emod`.
* The float configurable `filter_gain` is modelled as the exact rational
  `gainNum / gainDen`.  The C code computes `round(filter_gain * delta)`
  with `round` rounding half away from zero; `roundScale` below computes
  the same value in integer arithmetic, and is related to the
  mathematical rounding of the rational `gainNum / gainDen * delta`
  in the theorems.  For the gains exercised by the specification
  (0.25, 0.5, 1.0) and the bounded deltas of the decode path the float
  computation is exact, so the rational model coincides with it.
-/

namespace Wind

/-- Modulus of the MCU's 32-bit `unsigned long` arithmetic. -/
def U32 : Int := 4294967296

/-- Minimum switch time in microseconds (`DEBOUNCE` in the source). -/
def DEBOUNCE : Int := 10000

/-- Maximum time allowed between speed pulses in microseconds (`TIMEOUT`). -/
def TIMEOUT : Int := 1500000

/-- Speed band boundary 0 to 5 m/s, in cm/s (`BAND_0`). -/
def BAND_0 : Int := 5 * 100

/-- Speed band boundary 5 to 40 m/s, in cm/s (`BAND_1`). -/
def BAND_1 : Int := 40 * 100

/-- Speed deviation limit for band 0 (`SPEED_DEV_LIMIT_0`). -/
def SPEED_DEV_LIMIT_0 : Int := 5 * 100

/-- Speed deviation limit for band 1 (`SPEED_DEV_LIMIT_1`). -/
def SPEED_DEV_LIMIT_1 : Int := 10 * 100

/-- Speed deviation limit for band 2 (`SPEED_DEV_LIMIT_2`). -/
def SPEED_DEV_LIMIT_2 : Int := 30 * 100

/-- Direction deviation limit for band 0 (`DIR_DEV_LIMIT_0`). -/
def DIR_DEV_LIMIT_0 : Int := 25

/-- Direction deviation limit for band 1 (`DIR_DEV_LIMIT_1`). -/
def DIR_DEV_LIMIT_1 : Int := 18

/-- Direction deviation limit for band 2 (`DIR_DEV_LIMIT_2`). -/
def DIR_DEV_LIMIT_2 : Int := 10

/-- 32-bit unsigned subtraction `a - b`, wrapping modulo `2 ^ 32`. -/
def usub (a b : Int) : Int := (a - b) % U32

/-- The four shared `volatile` time variables written by the interrupt
handlers and copied by the snapshot at the top of `calcWindSpeedAndDir`:
`speedPulse`, `dirPulse`, `speedTime`, `directionTime`. -/
structure PulseState where
  speedPulse : Int
  dirPulse : Int
  speedTime : Int
  directionTime : Int
deriving DecidableEq

/-- The interrupt handler `readWindSpeed`.  `now` stands for the value of
`micros()` during the handler (the handler reads the clock more than once;
the calls are microseconds apart and are modelled as one instant), and
`pinLow` is the result of `digitalRead(windSpeedPin) == LOW`.
The test `dirPulse - speedPulse >= 0` of the source is an unsigned
comparison and is therefore true on every execution; it is kept verbatim. -/
def readWindSpeed (now : Int) (pinLow : Bool) (ps : PulseState) : PulseState :=
  if usub now ps.speedPulse > DEBOUNCE ∧ pinLow = true then
    { ps with
      speedTime := usub now ps.speedPulse
      directionTime :=
        if usub ps.dirPulse ps.speedPulse ≥ 0 then usub ps.dirPulse ps.speedPulse
        else ps.directionTime
      speedPulse := now }
  else ps

/-- The interrupt handler `readWindDir`. -/
def readWindDir (now : Int) (pinLow : Bool) (ps : PulseState) : PulseState :=
  if usub now ps.dirPulse > DEBOUNCE ∧ pinLow = true then { ps with dirPulse := now }
  else ps

/-- The persistent decoder state: the outputs `speedOut`, `dirOut`, the
static locals `prevSpeed`, `prevDir` of `calcWindSpeedAndDir`, the flag
`ignoreNextReading` and the diagnostic `rps`. -/
structure WindState where
  speedOut : Int
  dirOut : Int
  prevSpeed : Int
  prevDir : Int
  ignoreNextReading : Bool
  rps : Int
deriving DecidableEq

/-- The externally owned configuration: `filter_gain` as the exact
rational `gainNum / gainDen`, and `dir_offset`. -/
structure Config where
  gainNum : Int
  gainDen : Int
  dirOffset : Int
deriving DecidableEq

/-- The function `checkSpeedDev(long cmps, int dev)` of the source. -/
def checkSpeedDev (cmps dev : Int) : Bool :=
  if cmps < BAND_0 then decide (|dev| < SPEED_DEV_LIMIT_0)
  else if cmps < BAND_1 then decide (|dev| < SPEED_DEV_LIMIT_1)
  else decide (|dev| < SPEED_DEV_LIMIT_2)

/-- The function `checkDirDev(long cmps, int dev)` of the source. -/
def checkDirDev (cmps dev : Int) : Bool :=
  if cmps < BAND_0 then
    decide (|dev| < DIR_DEV_LIMIT_0 ∨ |dev| > 360 - DIR_DEV_LIMIT_0)
  else if cmps < BAND_1 then
    decide (|dev| < DIR_DEV_LIMIT_1 ∨ |dev| > 360 - DIR_DEV_LIMIT_1)
  else
    decide (|dev| < DIR_DEV_LIMIT_2 ∨ |dev| > 360 - DIR_DEV_LIMIT_2)

/-- The three-band piecewise quadratic calibration of the source,
including the final clamp of negative speeds to 0 (signed C division,
truncating toward zero). -/
def calcCmps (rps : Int) : Int :=
  let c :=
    if rps < 323 then
      (rps * rps * (-11)).tdiv 22369 + (293 * rps).tdiv 223 - 12
    else if rps < 5436 then
      ((rps * rps).tdiv 2).tdiv 22369 + (220 * rps).tdiv 223 + 96
    else
      (rps * rps * 11).tdiv 22369 - (957 * rps).tdiv 223 + 28664
  if c < 0 then 0 else c

/-- Shortest-path wrap of a raw angular delta, as in the source:
add 360 below -180, subtract 360 above +180. -/
def wrapDelta (d : Int) : Int :=
  if d < -180 then d + 360 else if d > 180 then d - 360 else d

/-- Integer computation of `round(gain * delta)` with `gain = gn / gd`
(`gd > 0`) and `round` rounding half away from zero, as the C library
`round` does: for `p = gn * delta ≥ 0` the value is `(2p + gd) / (2gd)`
truncated, and the negative case is symmetric. -/
def roundScale (gn gd delta : Int) : Int :=
  let p := gn * delta
  if p < 0 then -((2 * (-p) + gd).tdiv (2 * gd)) else (2 * p + gd).tdiv (2 * gd)

/-- The direction smoothing step of the source: wrap the delta, add the
rounded scaled delta, take the C `%` (truncating) by 360 and correct a
negative result by adding 360. -/
def smoothDir (gn gd dirOut w : Int) : Int :=
  let d1 := (dirOut + roundScale gn gd (wrapDelta (w - dirOut))).tmod 360
  if d1 < 0 then d1 + 360 else d1

/-- The direction computation of the source, lines 242 and 244:
`(((directionTime_ * 360) / speedTime_) - dir_offset) % 360` in 32-bit
unsigned arithmetic, then `360 - windDirection`.  The multiplication,
the subtraction of the (converted) offset and the `% 360` all happen in
`unsigned long`. -/
def resolveDir (directionTime speedTime offset : Int) : Int :=
  let q := ((directionTime * 360) % U32) / speedTime
  360 - (((q - offset) % U32) % 360)

/-- The effective speed interval of a decode cycle: the snapshotted
`speedTime_`, forced to zero when more than `TIMEOUT` microseconds have
passed since the last captured speed pulse (unsigned clock subtraction). -/
def effSpeedTime (now : Int) (snap : PulseState) : Int :=
  if usub now snap.speedPulse > TIMEOUT then 0 else snap.speedTime

/-- The direction part of `calcWindSpeedAndDir` (lines 235 to 266),
reached only when the speed reading was accepted: skip everything when
`directionTime_ > speedTime_`; otherwise resolve the direction, smooth it
into `dirOut` when `checkDirDev` accepts, and update `prevDir`
unconditionally. -/
def dirStep (cfg : Config) (t directionTime cmps : Int) (st : WindState) : WindState :=
  if directionTime > t then st
  else
    let w := resolveDir directionTime t cfg.dirOffset
    let st1 :=
      if checkDirDev cmps (w - st.prevDir) then
        { st with dirOut := smoothDir cfg.gainNum cfg.gainDen st.dirOut w }
      else st
    { st1 with prevDir := w }

/-- One execution of `calcWindSpeedAndDir` on a snapshot of the pulse
state: timeout check, rotation rate, calibration, speed deviation check,
direction step, and the unconditional `prevSpeed` update of the
non-stalled path. -/
def calcWindSpeedAndDir (cfg : Config) (now : Int) (snap : PulseState)
    (st : WindState) : WindState :=
  let t := effSpeedTime now snap
  if 0 < t then
    let r := (100000000 : Int) / t
    let cmps := calcCmps r
    let st1 := { st with rps := r }
    let st2 :=
      if checkSpeedDev cmps (cmps - st.prevSpeed) then
        dirStep cfg t snap.directionTime cmps { st1 with speedOut := cmps }
      else { st1 with ignoreNextReading := true }
    { st2 with prevSpeed := cmps }
  else
    { st with speedOut := 0, prevSpeed := 0 }

/-- Division guarded against a zero divisor, used to show that the decode
path never divides by a zero speed interval. -/
def intervalDiv (a t : Int) : Option Int := if t = 0 then none else some (a / t)

/-- The direction step with every division by the speed interval guarded. -/
def dirStepChecked (cfg : Config) (t directionTime cmps : Int) (st : WindState) :
    Option WindState :=
  if directionTime > t then some st
  else
    match intervalDiv ((directionTime * 360) % U32) t with
    | none => none
    | some q =>
      let w := 360 - (((q - cfg.dirOffset) % U32) % 360)
      let st1 :=
        if checkDirDev cmps (w - st.prevDir) then
          { st with dirOut := smoothDir cfg.gainNum cfg.gainDen st.dirOut w }
        else st
      some { st1 with prevDir := w }

/-- `calcWindSpeedAndDir` with every division by the speed interval
guarded; it returns `none` if and only if some guarded division has a
zero divisor. -/
def calcChecked (cfg : Config) (now : Int) (snap : PulseState) (st : WindState) :
    Option WindState :=
  let t := effSpeedTime now snap
  if 0 < t then
    match intervalDiv 100000000 t with
    | none => none
    | some r =>
      let cmps := calcCmps r
      let st1 := { st with rps := r }
      let st2 :=
        if checkSpeedDev cmps (cmps - st.prevSpeed) then
          dirStepChecked cfg t snap.directionTime cmps { st1 with speedOut := cmps }
        else some { st1 with ignoreNextReading := true }
      match st2 with
      | none => none
      | some st3 => some { st3 with prevSpeed := cmps }
  else
    some { st with speedOut := 0, prevSpeed := 0 }

/-- Modelled from the spec: the band-A calibration formula
`cmps = -11·r²/22369 + 293·r/223 − 12` in the exact integer operation
order stated by the specification (multiply first, each division
truncating). -/
def specBandA (r : Int) : Int :=
  (r * r * (-11)).tdiv 22369 + (293 * r).tdiv 223 - 12

/-- Modelled from the spec: the band-B calibration formula
`cmps = r²/2/22369 + 220·r/223 + 96`. -/
def specBandB (r : Int) : Int :=
  ((r * r).tdiv 2).tdiv 22369 + (220 * r).tdiv 223 + 96

/-- Modelled from the spec: the band-C calibration formula
`cmps = 11·r²/22369 − 957·r/223 + 28664`. -/
def specBandC (r : Int) : Int :=
  (r * r * 11).tdiv 22369 - (957 * r).tdiv 223 + 28664

/-- Modelled from the spec: the three-band piecewise calibration with
band boundaries 323 and 5436 and the clamp of negative results to 0. -/
def specCmps (r : Int) : Int :=
  let c := if r < 323 then specBandA r else if r < 5436 then specBandB r else specBandC r
  if c < 0 then 0 else c

/-- Modelled from the spec: the speed deviation limit as a function of
the new speed, 500 below 500 cm/s, 1000 from 500 to 3999, 3000 from 4000. -/
def specSpeedLimit (cmps : Int) : Int :=
  if cmps < 500 then 500 else if cmps < 4000 then 1000 else 3000

/-- Modelled from the spec: the direction deviation limit keyed by the
speed band, 25 below 500 cm/s, 18 from 500 to 3999, 10 from 4000. -/
def specDirLimit (cmps : Int) : Int :=
  if cmps < 500 then 25 else if cmps < 4000 then 18 else 10

/-- Rounding half away from zero on the rationals, the behaviour of the C
library `round` used by the source (`round` of Mathlib rounds half up). -/
def cRound (x : ℚ) : Int := if x < 0 then -round (-x) else round x

/-- Modelled from the spec: the smoothing step described in section 4.7,
`smoothedDirection = (smoothedDirection + round(filterGain × delta)) mod
360` on the wrapped delta, with the mathematical nonnegative `mod`. -/
def specSmooth (g : ℚ) (s d : Int) : Int :=
  (s + cRound (g * (wrapDelta (d - s) : ℚ))) % 360

theorem neg_lt_tmod360 (a : Int) : -360 < a.tmod 360 := by
  cases a with
  | ofNat m =>
    have h : (0 : Int) ≤ (Int.ofNat m).tmod 360 :=
      Int.tmod_nonneg 360 (Int.ofNat_nonneg m)
    omega
  | negSucc m =>
    show -360 < -(((m + 1) % 360 : Nat) : Int)
    have h : (m + 1) % 360 < 360 := Nat.mod_lt _ (by omega)
    omega

/-- The C pattern `x % 360` followed by `if (x < 0) x += 360` computes the
mathematical nonnegative remainder. -/
theorem tmodFix_eq_emod (a : Int) :
    (if a.tmod 360 < 0 then a.tmod 360 + 360 else a.tmod 360) = a % 360 := by
  have hd : a.tmod 360 = a - 360 * a.tdiv 360 := Int.tmod_def a 360
  have h1 : a.tmod 360 < 360 := Int.tmod_lt_of_pos a (by decide)
  have h2 : -360 < a.tmod 360 := neg_lt_tmod360 a
  split <;> omega

theorem smoothDir_eq_emod (gn gd s w : Int) :
    smoothDir gn gd s w = (s + roundScale gn gd (wrapDelta (w - s))) % 360 := by
  unfold smoothDir
  exact tmodFix_eq_emod _

theorem roundScale_one (d : Int) : roundScale 1 1 d = d := by
  unfold roundScale
  simp only [one_mul, mul_one]
  split
  next h =>
    rw [Int.tdiv_eq_ediv (by omega) (by omega)]
    omega
  next h =>
    rw [Int.tdiv_eq_ediv (by omega) (by omega)]
    omega

theorem cRound_intCast (n : Int) : cRound ((n : ℚ)) = n := by
  unfold cRound
  split
  · rw [show -(n : ℚ) = ((-n : Int) : ℚ) by push_cast; ring, round_intCast]
    ring
  · rw [round_intCast]

theorem dirStep_skip (cfg : Config) (t dt cmps : Int) (st : WindState)
    (h : t < dt) : dirStep cfg t dt cmps st = st := by
  unfold dirStep
  rw [if_pos h]

theorem dirStep_reject (cfg : Config) (t dt cmps : Int) (st : WindState)
    (h : dt ≤ t)
    (hd : checkDirDev cmps (resolveDir dt t cfg.dirOffset - st.prevDir) = false) :
    dirStep cfg t dt cmps st = { st with prevDir := resolveDir dt t cfg.dirOffset } := by
  unfold dirStep
  rw [if_neg (by omega)]
  simp only [hd, Bool.false_eq_true, if_false]

theorem dirStep_accept (cfg : Config) (t dt cmps : Int) (st : WindState)
    (h : dt ≤ t)
    (hd : checkDirDev cmps (resolveDir dt t cfg.dirOffset - st.prevDir) = true) :
    dirStep cfg t dt cmps st =
      { st with
        dirOut := smoothDir cfg.gainNum cfg.gainDen st.dirOut (resolveDir dt t cfg.dirOffset)
        prevDir := resolveDir dt t cfg.dirOffset } := by
  unfold dirStep
  rw [if_neg (by omega)]
  simp only [hd, if_true]

theorem calc_stall (cfg : Config) (now : Int) (snap : PulseState) (st : WindState)
    (h : effSpeedTime now snap ≤ 0) :
    calcWindSpeedAndDir cfg now snap st = { st with speedOut := 0, prevSpeed := 0 } := by
  unfold calcWindSpeedAndDir
  rw [if_neg (by omega)]

theorem calc_speed_reject (cfg : Config) (now : Int) (snap : PulseState) (st : WindState)
    (h1 : 0 < effSpeedTime now snap)
    (h2 : checkSpeedDev (calcCmps (100000000 / effSpeedTime now snap))
            (calcCmps (100000000 / effSpeedTime now snap) - st.prevSpeed) = false) :
    calcWindSpeedAndDir cfg now snap st =
      { st with
        rps := 100000000 / effSpeedTime now snap
        ignoreNextReading := true
        prevSpeed := calcCmps (100000000 / effSpeedTime now snap) } := by
  unfold calcWindSpeedAndDir
  rw [if_pos h1]
  simp only [h2, Bool.false_eq_true, if_false]

theorem calc_speed_accept (cfg : Config) (now : Int) (snap : PulseState) (st : WindState)
    (h1 : 0 < effSpeedTime now snap)
    (h2 : checkSpeedDev (calcCmps (100000000 / effSpeedTime now snap))
            (calcCmps (100000000 / effSpeedTime now snap) - st.prevSpeed) = true) :
    calcWindSpeedAndDir cfg now snap st =
      { dirStep cfg (effSpeedTime now snap) snap.directionTime
          (calcCmps (100000000 / effSpeedTime now snap))
          { st with
            rps := 100000000 / effSpeedTime now snap
            speedOut := calcCmps (100000000 / effSpeedTime now snap) } with
        prevSpeed := calcCmps (100000000 / effSpeedTime now snap) } := by
  unfold calcWindSpeedAndDir
  rw [if_pos h1]
  simp only [h2, if_true]

/-- `dirStep` never changes `speedOut`, `prevSpeed`, `rps` or
`ignoreNextReading`: it only writes `dirOut` and `prevDir`. -/
theorem dirStep_frame (cfg : Config) (t dt cmps : Int) (st : WindState) :
    (dirStep cfg t dt cmps st).speedOut = st.speedOut ∧
    (dirStep cfg t dt cmps st).prevSpeed = st.prevSpeed ∧
    (dirStep cfg t dt cmps st).rps = st.rps ∧
    (dirStep cfg t dt cmps st).ignoreNextReading = st.ignoreNextReading := by
  simp only [dirStep]
  split
  · exact ⟨rfl, rfl, rfl, rfl⟩
  · split <;> exact ⟨rfl, rfl, rfl, rfl⟩

/-- Bounds of the direction produced by line 242 and 244 of the source:
the unsigned remainder lies in `[0, 359]`, so after `360 - _` the resolved
direction lies in `[1, 360]`. -/
theorem resolveDir_bounds (dt t o : Int) :
    1 ≤ resolveDir dt t o ∧ resolveDir dt t o ≤ 360 := by
  simp only [resolveDir]
  have h1 : 0 ≤ ((((dt * 360) % U32) / t - o) % U32) % 360 :=
    Int.emod_nonneg _ (by decide)
  have h2 : ((((dt * 360) % U32) / t - o) % U32) % 360 < 360 :=
    Int.emod_lt_of_pos _ (by decide)
  omega

/-- Rounding half away from zero of a nonnegative fraction `p / g` is the
truncated quotient `(2p + g) / (2g)`. -/
theorem roundHalfAway (p g : Int) (hp : 0 ≤ p) (hg : 0 < g) :
    round ((p : ℚ) / (g : ℚ)) = (2 * p + g).tdiv (2 * g) := by
  have h2g : (((2 * g).toNat : ℕ) : Int) = 2 * g := Int.toNat_of_nonneg (by omega)
  have hgq : (g : ℚ) ≠ 0 := Int.cast_ne_zero.mpr (by omega)
  have key : (p : ℚ) / (g : ℚ) + 1 / 2 = ((2 * p + g : Int) : ℚ) / (((2 * g).toNat : ℕ) : ℚ) := by
    have hc : (((2 * g).toNat : ℕ) : ℚ) = ((2 * g : Int) : ℚ) := by
      exact_mod_cast congrArg (fun z : Int => (z : ℚ)) h2g
    rw [hc]
    push_cast
    field_simp
    ring
  rw [round_eq, key, Rat.floor_intCast_div_natCast, h2g,
    Int.tdiv_eq_ediv (by omega) (by omega)]

/-- The integer computation `roundScale` agrees with rounding half away
from zero of the exact rational `gn / gd * delta`. -/
theorem roundScale_eq_cRound (gn gd d : Int) (h : 0 < gd) :
    roundScale gn gd d = cRound ((gn : ℚ) / (gd : ℚ) * (d : ℚ)) := by
  have hx : (gn : ℚ) / (gd : ℚ) * (d : ℚ) = ((gn * d : Int) : ℚ) / (gd : ℚ) := by
    push_cast
    ring
  rw [hx]
  simp only [roundScale, cRound]
  rcases lt_or_le (gn * d) 0 with hp | hp
  · have hx0 : ((gn * d : Int) : ℚ) / (gd : ℚ) < 0 :=
      div_neg_of_neg_of_pos (by exact_mod_cast hp) (by exact_mod_cast h)
    rw [if_pos hp, if_pos hx0]
    have hneg : -(((gn * d : Int) : ℚ) / (gd : ℚ)) = ((-(gn * d) : Int) : ℚ) / (gd : ℚ) := by
      push_cast
      ring
    rw [hneg, roundHalfAway _ _ (by omega) h]
  · have hx0 : ¬ (((gn * d : Int) : ℚ) / (gd : ℚ) < 0) :=
      not_lt.mpr (div_nonneg (by exact_mod_cast hp) (by exact_mod_cast h.le))
    rw [if_neg (not_lt.mpr hp), if_neg hx0, roundHalfAway _ _ hp h]

/-- The smoothing step of the source coincides with the smoothing step
described by the specification, for a gain given as the exact rational
`gn / gd`. -/
theorem smoothDir_eq_specSmooth (gn gd s w : Int) (h : 0 < gd) :
    smoothDir gn gd s w = specSmooth ((gn : ℚ) / (gd : ℚ)) s w := by
  rw [smoothDir_eq_emod, specSmooth, roundScale_eq_cRound _ _ _ h]

/-- With unit gain the smoothing step reduces the new direction modulo
360 and forgets the previous smoothed value. -/
theorem smoothDir_one (s d : Int) : smoothDir 1 1 s d = d % 360 := by
  rw [smoothDir_eq_emod, roundScale_one]
  simp only [wrapDelta]
  split_ifs <;> omega

/-- The calibration of the source is exactly the piecewise calibration of
the specification. -/
theorem calcCmps_eq_specCmps (r : Int) : calcCmps r = specCmps r := rfl

theorem dirStepChecked_eq (cfg : Config) (t dt cmps : Int) (st : WindState)
    (h : 0 < t) :
    dirStepChecked cfg t dt cmps st = some (dirStep cfg t dt cmps st) := by
  simp only [dirStepChecked, dirStep, intervalDiv, resolveDir]
  split
  · rfl
  · rw [if_neg (by omega)]

/-- The checked decode never fails: every division by the speed interval
in the decode path is reached only with a positive divisor. -/
theorem calcChecked_eq (cfg : Config) (now : Int) (snap : PulseState) (st : WindState) :
    calcChecked cfg now snap st = some (calcWindSpeedAndDir cfg now snap st) := by
  by_cases h : 0 < effSpeedTime now snap
  · have hne : effSpeedTime now snap ≠ 0 := by omega
    rcases Bool.eq_false_or_eq_true
        (checkSpeedDev (calcCmps (100000000 / effSpeedTime now snap))
          (calcCmps (100000000 / effSpeedTime now snap) - st.prevSpeed)) with hA | hA
    · rw [calc_speed_accept cfg now snap st h hA]
      simp only [calcChecked, intervalDiv]
      rw [if_pos h, if_neg hne]
      simp only [hA, eq_self_iff_true, if_true]
      rw [dirStepChecked_eq cfg _ _ _ _ h]
    · rw [calc_speed_reject cfg now snap st h hA]
      simp only [calcChecked, intervalDiv]
      rw [if_pos h, if_neg hne]
      simp [hA]
  · simp only [calcChecked, calcWindSpeedAndDir]
    rw [if_neg h, if_neg h]

theorem calc_rps (cfg : Config) (now : Int) (snap : PulseState) (st : WindState)
    (h : 0 < effSpeedTime now snap) :
    (calcWindSpeedAndDir cfg now snap st).rps = 100000000 / effSpeedTime now snap := by
  rcases Bool.eq_false_or_eq_true
      (checkSpeedDev (calcCmps (100000000 / effSpeedTime now snap))
        (calcCmps (100000000 / effSpeedTime now snap) - st.prevSpeed)) with hA | hA
  · rw [calc_speed_accept cfg now snap st h hA]
    exact (dirStep_frame cfg _ _ _ _).2.2.1
  · rw [calc_speed_reject cfg now snap st h hA]

theorem calc_prevSpeed (cfg : Config) (now : Int) (snap : PulseState) (st : WindState)
    (h : 0 < effSpeedTime now snap) :
    (calcWindSpeedAndDir cfg now snap st).prevSpeed =
      calcCmps (100000000 / effSpeedTime now snap) := by
  rcases Bool.eq_false_or_eq_true
      (checkSpeedDev (calcCmps (100000000 / effSpeedTime now snap))
        (calcCmps (100000000 / effSpeedTime now snap) - st.prevSpeed)) with hA | hA
  · rw [calc_speed_accept cfg now snap st h hA]
  · rw [calc_speed_reject cfg now snap st h hA]

theorem calc_dir_skip (cfg : Config) (now : Int) (snap : PulseState) (st : WindState)
    (h1 : 0 < effSpeedTime now snap)
    (h2 : checkSpeedDev (calcCmps (100000000 / effSpeedTime now snap))
        (calcCmps (100000000 / effSpeedTime now snap) - st.prevSpeed) = true)
    (hgt : effSpeedTime now snap < snap.directionTime) :
    calcWindSpeedAndDir cfg now snap st =
      { st with
        rps := 100000000 / effSpeedTime now snap
        speedOut := calcCmps (100000000 / effSpeedTime now snap)
        prevSpeed := calcCmps (100000000 / effSpeedTime now snap) } := by
  rw [calc_speed_accept cfg now snap st h1 h2,
    dirStep_skip cfg (effSpeedTime now snap) snap.directionTime
      (calcCmps (100000000 / effSpeedTime now snap))
      { st with
        rps := 100000000 / effSpeedTime now snap
        speedOut := calcCmps (100000000 / effSpeedTime now snap) } hgt]

theorem calc_dir_reject (cfg : Config) (now : Int) (snap : PulseState) (st : WindState)
    (h1 : 0 < effSpeedTime now snap)
    (h2 : checkSpeedDev (calcCmps (100000000 / effSpeedTime now snap))
        (calcCmps (100000000 / effSpeedTime now snap) - st.prevSpeed) = true)
    (hle : snap.directionTime ≤ effSpeedTime now snap)
    (hd : checkDirDev (calcCmps (100000000 / effSpeedTime now snap))
        (resolveDir snap.directionTime (effSpeedTime now snap) cfg.dirOffset -
          st.prevDir) = false) :
    calcWindSpeedAndDir cfg now snap st =
      { st with
        rps := 100000000 / effSpeedTime now snap
        speedOut := calcCmps (100000000 / effSpeedTime now snap)
        prevSpeed := calcCmps (100000000 / effSpeedTime now snap)
        prevDir := resolveDir snap.directionTime (effSpeedTime now snap) cfg.dirOffset } := by
  rw [calc_speed_accept cfg now snap st h1 h2,
    dirStep_reject cfg (effSpeedTime now snap) snap.directionTime
      (calcCmps (100000000 / effSpeedTime now snap))
      { st with
        rps := 100000000 / effSpeedTime now snap
        speedOut := calcCmps (100000000 / effSpeedTime now snap) } hle hd]

theorem calc_dir_accept (cfg : Config) (now : Int) (snap : PulseState) (st : WindState)
    (h1 : 0 < effSpeedTime now snap)
    (h2 : checkSpeedDev (calcCmps (100000000 / effSpeedTime now snap))
        (calcCmps (100000000 / effSpeedTime now snap) - st.prevSpeed) = true)
    (hle : snap.directionTime ≤ effSpeedTime now snap)
    (hd : checkDirDev (calcCmps (100000000 / effSpeedTime now snap))
        (resolveDir snap.directionTime (effSpeedTime now snap) cfg.dirOffset -
          st.prevDir) = true) :
    calcWindSpeedAndDir cfg now snap st =
      { st with
        rps := 100000000 / effSpeedTime now snap
        speedOut := calcCmps (100000000 / effSpeedTime now snap)
        prevSpeed := calcCmps (100000000 / effSpeedTime now snap)
        dirOut := smoothDir cfg.gainNum cfg.gainDen st.dirOut
          (resolveDir snap.directionTime (effSpeedTime now snap) cfg.dirOffset)
        prevDir := resolveDir snap.directionTime (effSpeedTime now snap) cfg.dirOffset } := by
  rw [calc_speed_accept cfg now snap st h1 h2,
    dirStep_accept cfg (effSpeedTime now snap) snap.directionTime
      (calcCmps (100000000 / effSpeedTime now snap))
      { st with
        rps := 100000000 / effSpeedTime now snap
        speedOut := calcCmps (100000000 / effSpeedTime now snap) } hle hd]

/-- C1: in every decode cycle whose effective speed interval (the
snapshotted `speedTime_`, possibly zeroed by the timeout) is positive,
the decoder computes the rotation rate `r = 100000000 / speedInterval` by
truncating integer division and maps it to a speed by the three-band
piecewise quadratic in the exact integer operation order of the
specification, clamping a negative result to 0; the value reaches
`prevSpeed` in both the accepted and the rejected branch.  The rate 300
uses the band-A formula (giving 338), and rates 322 and 323 select
different formulas (band A and band B). -/
theorem c1_piecewise_calibration (cfg : Config) (now : Int) (snap : PulseState)
    (st : WindState) (h : 0 < effSpeedTime now snap) :
    (calcWindSpeedAndDir cfg now snap st).rps =
        Int.tdiv 100000000 (effSpeedTime now snap) ∧
    (calcWindSpeedAndDir cfg now snap st).prevSpeed =
        specCmps (Int.tdiv 100000000 (effSpeedTime now snap)) ∧
    specCmps 300 = specBandA 300 ∧ specBandA 300 = 338 ∧
    specCmps 322 = specBandA 322 ∧ specCmps 323 = specBandB 323 ∧
    specBandA 322 = 361 ∧ specBandB 323 = 416 := by
  rw [Int.tdiv_eq_ediv (by decide) (by omega)]
  refine ⟨calc_rps cfg now snap st h, ?_, by decide, by decide, by decide, by decide,
    by decide, by decide⟩
  rw [calc_prevSpeed cfg now snap st h, calcCmps_eq_specCmps]

theorem c1_piecewise_calibration_witness :
    (calcWindSpeedAndDir ⟨1, 4, 0⟩ 1000 ⟨0, 0, 333333, 0⟩ ⟨0, 0, 0, 0, false, 0⟩).rps =
        Int.tdiv 100000000 (effSpeedTime 1000 ⟨0, 0, 333333, 0⟩) ∧
    (calcWindSpeedAndDir ⟨1, 4, 0⟩ 1000 ⟨0, 0, 333333, 0⟩ ⟨0, 0, 0, 0, false, 0⟩).rps = 300 ∧
    (calcWindSpeedAndDir ⟨1, 4, 0⟩ 1000 ⟨0, 0, 333333, 0⟩ ⟨0, 0, 0, 0, false, 0⟩).prevSpeed = 338 := by
  have h := c1_piecewise_calibration ⟨1, 4, 0⟩ 1000 ⟨0, 0, 333333, 0⟩ ⟨0, 0, 0, 0, false, 0⟩
    (by decide)
  exact ⟨h.1, by rw [h.1]; decide, by rw [h.2.1]; decide⟩

/-- C2: in every non-stalled decode cycle the new speed is accepted if
and only if its absolute deviation from `prevSpeed` is strictly below the
band limit (500 below 500 cm/s, 1000 from 500 to 3999 — so 500 and 3999
both use the 1000 limit — and 3000 from 4000); on acceptance `speedOut`
becomes the new speed and the cycle continues with the direction step,
on rejection `speedOut`, `dirOut` and `prevDir` keep their previous
values, and in both branches `prevSpeed` receives the new speed. -/
theorem c2_speed_deviation_gate (cfg : Config) (now : Int) (snap : PulseState)
    (st : WindState) (h : 0 < effSpeedTime now snap) :
    (∀ c d : Int, checkSpeedDev c d = true ↔ |d| < specSpeedLimit c) ∧
    specSpeedLimit 500 = 1000 ∧ specSpeedLimit 3999 = 1000 ∧
    (calcWindSpeedAndDir cfg now snap st).prevSpeed =
        calcCmps (100000000 / effSpeedTime now snap) ∧
    (checkSpeedDev (calcCmps (100000000 / effSpeedTime now snap))
          (calcCmps (100000000 / effSpeedTime now snap) - st.prevSpeed) = true →
        (calcWindSpeedAndDir cfg now snap st).speedOut =
            calcCmps (100000000 / effSpeedTime now snap) ∧
        calcWindSpeedAndDir cfg now snap st =
          { dirStep cfg (effSpeedTime now snap) snap.directionTime
              (calcCmps (100000000 / effSpeedTime now snap))
              { st with
                rps := 100000000 / effSpeedTime now snap
                speedOut := calcCmps (100000000 / effSpeedTime now snap) } with
            prevSpeed := calcCmps (100000000 / effSpeedTime now snap) }) ∧
    (checkSpeedDev (calcCmps (100000000 / effSpeedTime now snap))
          (calcCmps (100000000 / effSpeedTime now snap) - st.prevSpeed) = false →
        (calcWindSpeedAndDir cfg now snap st).speedOut = st.speedOut ∧
        (calcWindSpeedAndDir cfg now snap st).dirOut = st.dirOut ∧
        (calcWindSpeedAndDir cfg now snap st).prevDir = st.prevDir) := by
  refine ⟨?_, by decide, by decide, calc_prevSpeed cfg now snap st h, ?_, ?_⟩
  · intro c d
    simp only [checkSpeedDev, specSpeedLimit, BAND_0, BAND_1, SPEED_DEV_LIMIT_0,
      SPEED_DEV_LIMIT_1, SPEED_DEV_LIMIT_2, decide_eq_true_eq]
    norm_num
    split_ifs <;> norm_num
  · intro hA
    refine ⟨?_, calc_speed_accept cfg now snap st h hA⟩
    rw [calc_speed_accept cfg now snap st h hA]
    exact (dirStep_frame cfg _ _ _ _).1
  · intro hA
    rw [calc_speed_reject cfg now snap st h hA]
    exact ⟨rfl, rfl, rfl⟩

theorem c2_speed_deviation_gate_witness :
    (calcWindSpeedAndDir ⟨1, 4, 0⟩ 1000 ⟨0, 0, 333333, 0⟩ ⟨0, 0, 0, 0, false, 0⟩).speedOut = 338 ∧
    checkSpeedDev 500 999 = true ∧ checkSpeedDev 500 1000 = false ∧
    checkSpeedDev 3999 999 = true ∧ checkSpeedDev 3999 1000 = false := by
  have h := c2_speed_deviation_gate ⟨1, 4, 0⟩ 1000 ⟨0, 0, 333333, 0⟩ ⟨0, 0, 0, 0, false, 0⟩
    (by decide)
  refine ⟨?_, by decide, by decide, by decide, by decide⟩
  rw [(h.2.2.2.2.1 (by decide)).1]
  decide

/-- C3: `checkDirDev` accepts a deviation exactly when its absolute value
is below the band limit (25 below 500 cm/s, 18 from 500 to 3999, 10 from
4000) or above 360 minus the limit, handling wraparound; the deviation
from a previous direction of 358 to a new direction of 3 (raw magnitude
355) is accepted for every speed. -/
theorem c3_direction_deviation_gate :
    (∀ c d : Int, checkDirDev c d = true ↔
        (|d| < specDirLimit c ∨ |d| > 360 - specDirLimit c)) ∧
    (∀ c : Int, checkDirDev c (3 - 358) = true) := by
  constructor
  · intro c d
    simp only [checkDirDev, specDirLimit, BAND_0, BAND_1, DIR_DEV_LIMIT_0,
      DIR_DEV_LIMIT_1, DIR_DEV_LIMIT_2, decide_eq_true_eq]
    norm_num
    split_ifs <;> norm_num
  · intro c
    simp only [checkDirDev, BAND_0, BAND_1, DIR_DEV_LIMIT_0, DIR_DEV_LIMIT_1,
      DIR_DEV_LIMIT_2]
    split_ifs <;> decide

/-- C4 as stated fails on the code: with direction interval 0, speed
interval 1000000 and offset 256 the cycle resolves (and records in
`prevDir`) the direction 360, which is outside the claimed range
`[0, 360)` and differs from the claimed mathematical-mod formula, whose
value is 256 — the source subtracts the offset in 32-bit unsigned
arithmetic and never normalizes `360 - windDirection` back into
`[0, 360)`. -/
theorem c4_counterexample :
    (calcWindSpeedAndDir ⟨1, 4, 256⟩ 1000 ⟨0, 0, 1000000, 0⟩
        ⟨0, 0, 0, 0, false, 0⟩).prevDir = 360 ∧
    ¬ ((calcWindSpeedAndDir ⟨1, 4, 256⟩ 1000 ⟨0, 0, 1000000, 0⟩
        ⟨0, 0, 0, 0, false, 0⟩).prevDir < 360) ∧
    (calcWindSpeedAndDir ⟨1, 4, 256⟩ 1000 ⟨0, 0, 1000000, 0⟩
        ⟨0, 0, 0, 0, false, 0⟩).prevDir ≠
      360 - ((((0 : Int) * 360) / 1000000 - 256) % 360) := by
  decide

/-- C4 amended: direction resolution runs only in a non-stalled cycle
with accepted speed; when `dirInterval > speedInterval` direction
publication is skipped while the speed output still updates; otherwise
the resolved direction equals
`360 − (((dirInterval·360 mod 2^32) / speedInterval − offset) mod 2^32 mod 360)`
(the 32-bit unsigned arithmetic of the source), lies in `[1, 360]`, and
coincides with the claimed mathematical-mod formula whenever
`0 ≤ offset ≤ (dirInterval·360 mod 2^32) / speedInterval`. -/
theorem c4_direction_resolution (cfg : Config) (now : Int) (snap : PulseState)
    (st : WindState) (h1 : 0 < effSpeedTime now snap)
    (h2 : checkSpeedDev (calcCmps (100000000 / effSpeedTime now snap))
        (calcCmps (100000000 / effSpeedTime now snap) - st.prevSpeed) = true) :
    (effSpeedTime now snap < snap.directionTime →
        (calcWindSpeedAndDir cfg now snap st).dirOut = st.dirOut ∧
        (calcWindSpeedAndDir cfg now snap st).prevDir = st.prevDir ∧
        (calcWindSpeedAndDir cfg now snap st).speedOut =
          calcCmps (100000000 / effSpeedTime now snap)) ∧
    (snap.directionTime ≤ effSpeedTime now snap →
        (calcWindSpeedAndDir cfg now snap st).prevDir =
          360 - ((((snap.directionTime * 360) % U32) / effSpeedTime now snap
              - cfg.dirOffset) % U32) % 360 ∧
        1 ≤ (calcWindSpeedAndDir cfg now snap st).prevDir ∧
        (calcWindSpeedAndDir cfg now snap st).prevDir ≤ 360 ∧
        (0 ≤ cfg.dirOffset →
          cfg.dirOffset ≤ ((snap.directionTime * 360) % U32) / effSpeedTime now snap →
          (calcWindSpeedAndDir cfg now snap st).prevDir =
            360 - (((snap.directionTime * 360) % U32) / effSpeedTime now snap
                - cfg.dirOffset) % 360)) := by
  constructor
  · intro hgt
    rw [calc_dir_skip cfg now snap st h1 h2 hgt]
    exact ⟨rfl, rfl, rfl⟩
  · intro hle
    have hw : (calcWindSpeedAndDir cfg now snap st).prevDir =
        resolveDir snap.directionTime (effSpeedTime now snap) cfg.dirOffset := by
      rcases Bool.eq_false_or_eq_true
          (checkDirDev (calcCmps (100000000 / effSpeedTime now snap))
            (resolveDir snap.directionTime (effSpeedTime now snap) cfg.dirOffset -
              st.prevDir)) with hd | hd
      · rw [calc_dir_accept cfg now snap st h1 h2 hle hd]
      · rw [calc_dir_reject cfg now snap st h1 h2 hle hd]
    refine ⟨by rw [hw]; rfl, by rw [hw]; exact (resolveDir_bounds _ _ _).1,
      by rw [hw]; exact (resolveDir_bounds _ _ _).2, ?_⟩
    intro ho1 ho2
    rw [hw]
    have hX1 : 0 ≤ (snap.directionTime * 360) % U32 := Int.emod_nonneg _ (by decide)
    have hq1 : ((snap.directionTime * 360) % U32) / effSpeedTime now snap ≤
        (snap.directionTime * 360) % U32 := Int.ediv_le_self _ hX1
    have hX2 : (snap.directionTime * 360) % U32 < U32 := Int.emod_lt_of_pos _ (by decide)
    have hm : (((snap.directionTime * 360) % U32) / effSpeedTime now snap
        - cfg.dirOffset) % U32 =
        ((snap.directionTime * 360) % U32) / effSpeedTime now snap - cfg.dirOffset :=
      Int.emod_eq_of_lt (by omega) (by omega)
    simp only [resolveDir]
    rw [hm]

theorem c4_direction_resolution_witness :
    (calcWindSpeedAndDir ⟨1, 4, 256⟩ 1000 ⟨0, 0, 1000000, 0⟩
        ⟨0, 0, 0, 0, false, 0⟩).prevDir =
      360 - ((((0 * 360) % U32) / effSpeedTime 1000 ⟨0, 0, 1000000, 0⟩ - 256) % U32) % 360 ∧
    1 ≤ (calcWindSpeedAndDir ⟨1, 4, 256⟩ 1000 ⟨0, 0, 1000000, 0⟩
        ⟨0, 0, 0, 0, false, 0⟩).prevDir ∧
    (calcWindSpeedAndDir ⟨1, 4, 256⟩ 1000 ⟨0, 0, 1000000, 0⟩
        ⟨0, 0, 0, 0, false, 0⟩).prevDir ≤ 360 := by
  have h := c4_direction_resolution ⟨1, 4, 256⟩ 1000 ⟨0, 0, 1000000, 0⟩
      ⟨0, 0, 0, 0, false, 0⟩ (by decide) (by decide)
  have h2 := h.2 (by decide)
  exact ⟨h2.1, h2.2.1, h2.2.2.1⟩

/-- C5: when a resolved direction is accepted, the new smoothed direction
is `(s + round(filterGain × delta)) mod 360` where `delta` is the wrapped
difference of the accepted direction and the previous smoothed direction
`s`, `round` rounds half away from zero as the C `round` does, and the
result is normalized into `[0, 360)` by the mathematical `mod`; in
particular `s = 350`, accepted direction 10 and gain 0.5 give wrapped
delta 20 and new smoothed direction 0. -/
theorem c5_direction_smoothing (cfg : Config) (now : Int) (snap : PulseState)
    (st : WindState) (hg : 0 < cfg.gainDen)
    (h1 : 0 < effSpeedTime now snap)
    (h2 : checkSpeedDev (calcCmps (100000000 / effSpeedTime now snap))
        (calcCmps (100000000 / effSpeedTime now snap) - st.prevSpeed) = true)
    (h3 : snap.directionTime ≤ effSpeedTime now snap)
    (h4 : checkDirDev (calcCmps (100000000 / effSpeedTime now snap))
        (resolveDir snap.directionTime (effSpeedTime now snap) cfg.dirOffset -
          st.prevDir) = true) :
    (calcWindSpeedAndDir cfg now snap st).dirOut =
      specSmooth ((cfg.gainNum : ℚ) / (cfg.gainDen : ℚ)) st.dirOut
        (resolveDir snap.directionTime (effSpeedTime now snap) cfg.dirOffset) ∧
    wrapDelta (10 - 350) = 20 ∧
    specSmooth ((1 : ℚ) / 2) 350 10 = 0 ∧
    smoothDir 1 2 350 10 = 0 := by
  refine ⟨?_, by decide, ?_, by decide⟩
  · rw [calc_dir_accept cfg now snap st h1 h2 h3 h4]
    exact smoothDir_eq_specSmooth cfg.gainNum cfg.gainDen st.dirOut _ hg
  · have hs := smoothDir_eq_specSmooth 1 2 350 10 (by decide)
    have hcast : ((1 : Int) : ℚ) / ((2 : Int) : ℚ) = (1 : ℚ) / 2 := by norm_num
    rw [← hcast, ← hs]
    decide

theorem c5_direction_smoothing_witness :
    (calcWindSpeedAndDir ⟨1, 2, 0⟩ 1000 ⟨0, 0, 1000000, 0⟩
        ⟨0, 0, 0, 0, false, 0⟩).dirOut =
      specSmooth (((1 : Int) : ℚ) / ((2 : Int) : ℚ)) 0
        (resolveDir 0 (effSpeedTime 1000 ⟨0, 0, 1000000, 0⟩) 0) ∧
    wrapDelta (10 - 350) = 20 ∧ specSmooth ((1 : ℚ) / 2) 350 10 = 0 := by
  have h := c5_direction_smoothing ⟨1, 2, 0⟩ 1000 ⟨0, 0, 1000000, 0⟩
      ⟨0, 0, 0, 0, false, 0⟩ (by decide) (by decide) (by decide) (by decide) (by decide)
  exact ⟨h.1, h.2.1, h.2.2.1⟩

/-- C6: with unit filter gain the smoother is the identity modulo 360 on
the accepted direction and retains no memory of the previous smoothed
value: for every previous smoothed direction the published smoothed
direction after an accepting cycle is the accepted raw direction modulo
360. -/
theorem c6_unit_gain_identity (cfg : Config) (now : Int) (snap : PulseState)
    (st : WindState) (hg1 : cfg.gainNum = 1) (hg2 : cfg.gainDen = 1)
    (h1 : 0 < effSpeedTime now snap)
    (h2 : checkSpeedDev (calcCmps (100000000 / effSpeedTime now snap))
        (calcCmps (100000000 / effSpeedTime now snap) - st.prevSpeed) = true)
    (h3 : snap.directionTime ≤ effSpeedTime now snap)
    (h4 : checkDirDev (calcCmps (100000000 / effSpeedTime now snap))
        (resolveDir snap.directionTime (effSpeedTime now snap) cfg.dirOffset -
          st.prevDir) = true) :
    (∀ s d : Int, smoothDir 1 1 s d = d % 360) ∧
    (calcWindSpeedAndDir cfg now snap st).dirOut =
      (resolveDir snap.directionTime (effSpeedTime now snap) cfg.dirOffset) % 360 := by
  refine ⟨smoothDir_one, ?_⟩
  rw [calc_dir_accept cfg now snap st h1 h2 h3 h4]
  show smoothDir cfg.gainNum cfg.gainDen _ _ = _
  rw [hg1, hg2]
  exact smoothDir_one _ _

theorem c6_unit_gain_identity_witness :
    smoothDir 1 1 350 10 = 10 % 360 ∧
    (calcWindSpeedAndDir ⟨1, 1, 0⟩ 1000 ⟨0, 0, 1000000, 0⟩
        ⟨0, 0, 0, 0, false, 0⟩).dirOut =
      (resolveDir 0 (effSpeedTime 1000 ⟨0, 0, 1000000, 0⟩) 0) % 360 := by
  have h := c6_unit_gain_identity ⟨1, 1, 0⟩ 1000 ⟨0, 0, 1000000, 0⟩
      ⟨0, 0, 0, 0, false, 0⟩ rfl rfl (by decide) (by decide) (by decide) (by decide)
  exact ⟨h.1 350 10, h.2⟩

/-- C7: when more than `TIMEOUT` (1,500,000) microseconds have elapsed
since the last captured speed pulse — or whenever the effective speed
interval is zero — the cycle publishes speed 0, resets `prevSpeed` to 0
and leaves the direction state untouched; moreover the guarded decode,
which fails on any division by a zero speed interval, always succeeds
and agrees with the decode, so no division by a zero `speedInterval` is
reachable. -/
theorem c7_stall_and_guarded_division (cfg : Config) (now : Int) (snap : PulseState)
    (st : WindState) :
    (TIMEOUT < usub now snap.speedPulse →
        calcWindSpeedAndDir cfg now snap st = { st with speedOut := 0, prevSpeed := 0 }) ∧
    (effSpeedTime now snap ≤ 0 →
        calcWindSpeedAndDir cfg now snap st = { st with speedOut := 0, prevSpeed := 0 }) ∧
    calcChecked cfg now snap st = some (calcWindSpeedAndDir cfg now snap st) := by
  refine ⟨?_, calc_stall cfg now snap st, calcChecked_eq cfg now snap st⟩
  intro htm
  refine calc_stall cfg now snap st ?_
  simp only [effSpeedTime]
  rw [if_pos htm]

theorem c7_stall_and_guarded_division_witness :
    calcWindSpeedAndDir ⟨1, 4, 0⟩ 2000000 ⟨0, 0, 1000000, 0⟩ ⟨77, 88, 99, 111, false, 5⟩ =
      { speedOut := 0, dirOut := 88, prevSpeed := 0, prevDir := 111,
        ignoreNextReading := false, rps := 5 } ∧
    calcChecked ⟨1, 4, 0⟩ 2000000 ⟨0, 0, 1000000, 0⟩ ⟨77, 88, 99, 111, false, 5⟩ =
      some (calcWindSpeedAndDir ⟨1, 4, 0⟩ 2000000 ⟨0, 0, 1000000, 0⟩
        ⟨77, 88, 99, 111, false, 5⟩) := by
  have h := c7_stall_and_guarded_division ⟨1, 4, 0⟩ 2000000 ⟨0, 0, 1000000, 0⟩
      ⟨77, 88, 99, 111, false, 5⟩
  exact ⟨h.1 (by decide), h.2.2⟩

/-- C8 describes the intent of the source comment, but the code cannot
implement it: `dirPulse - speedPulse >= 0` is an unsigned comparison and
holds on every execution, so an accepted speed edge always overwrites
`directionTime`, also when the most recent direction pulse predates the
previous speed pulse.  At `speedPulse = 200`, `dirPulse = 100` the
handler sets `directionTime` to the wrapped value `2^32 - 100` instead
of leaving the stored 7777 unchanged. -/
theorem c8_direction_guard_ineffective :
    (readWindSpeed 2000000 true ⟨200, 100, 0, 7777⟩).directionTime = 4294967196 ∧
    (readWindSpeed 2000000 true ⟨200, 100, 0, 7777⟩).directionTime ≠ 7777 := by
  decide

/-- C9 as stated fails on the code: in a cycle whose direction deviation
check rejects (previous direction 100, resolved direction 360, speed
115 so the limit is 25 and 260 is out of range on both sides),
`prevDir` is nevertheless overwritten with the resolved direction,
because the assignment `prevDir = windDirection` sits outside the
`checkDirDev` conditional; the smoothed output `dirOut` does stay
unchanged. -/
theorem c9_counterexample :
    checkDirDev 115 (resolveDir 0 1000000 0 - 100) = false ∧
    (calcWindSpeedAndDir ⟨1, 4, 0⟩ 1000 ⟨0, 0, 1000000, 0⟩
        ⟨0, 100, 0, 100, false, 0⟩).prevDir = 360 ∧
    (calcWindSpeedAndDir ⟨1, 4, 0⟩ 1000 ⟨0, 0, 1000000, 0⟩
        ⟨0, 100, 0, 100, false, 0⟩).prevDir ≠ 100 ∧
    (calcWindSpeedAndDir ⟨1, 4, 0⟩ 1000 ⟨0, 0, 1000000, 0⟩
        ⟨0, 100, 0, 100, false, 0⟩).dirOut = 100 := by
  decide

/-- C9 amended: `prevDir` is set to the newly resolved direction in
every cycle in which direction resolution completes (speed accepted,
not stalled, `dirInterval ≤ speedInterval`), whether or not the
plausibility check accepts it; when the check rejects, the smoothed
published direction `dirOut` is left unchanged for the cycle. -/
theorem c9_prevdir_update (cfg : Config) (now : Int) (snap : PulseState)
    (st : WindState) (h1 : 0 < effSpeedTime now snap)
    (h2 : checkSpeedDev (calcCmps (100000000 / effSpeedTime now snap))
        (calcCmps (100000000 / effSpeedTime now snap) - st.prevSpeed) = true)
    (h3 : snap.directionTime ≤ effSpeedTime now snap) :
    (calcWindSpeedAndDir cfg now snap st).prevDir =
      resolveDir snap.directionTime (effSpeedTime now snap) cfg.dirOffset ∧
    (checkDirDev (calcCmps (100000000 / effSpeedTime now snap))
        (resolveDir snap.directionTime (effSpeedTime now snap) cfg.dirOffset -
          st.prevDir) = false →
      (calcWindSpeedAndDir cfg now snap st).dirOut = st.dirOut) := by
  rcases Bool.eq_false_or_eq_true
      (checkDirDev (calcCmps (100000000 / effSpeedTime now snap))
        (resolveDir snap.directionTime (effSpeedTime now snap) cfg.dirOffset -
          st.prevDir)) with hd | hd
  · rw [calc_dir_accept cfg now snap st h1 h2 h3 hd]
    exact ⟨rfl, fun hc => absurd hd (by rw [hc]; decide)⟩
  · rw [calc_dir_reject cfg now snap st h1 h2 h3 hd]
    exact ⟨rfl, fun _ => rfl⟩

theorem c9_prevdir_update_witness :
    (calcWindSpeedAndDir ⟨1, 4, 0⟩ 1000 ⟨0, 0, 1000000, 0⟩
        ⟨0, 100, 0, 100, false, 0⟩).prevDir =
      resolveDir 0 (effSpeedTime 1000 ⟨0, 0, 1000000, 0⟩) 0 ∧
    (calcWindSpeedAndDir ⟨1, 4, 0⟩ 1000 ⟨0, 0, 1000000, 0⟩
        ⟨0, 100, 0, 100, false, 0⟩).dirOut = 100 := by
  have h := c9_prevdir_update ⟨1, 4, 0⟩ 1000 ⟨0, 0, 1000000, 0⟩
      ⟨0, 100, 0, 100, false, 0⟩ (by decide) (by decide) (by decide)
  exact ⟨h.1, h.2 (by decide)⟩

/-- C10: `ignoreNextReading` is write-only state: it is set to `true`
when the speed deviation check rejects, and the decode never reads it —
two cycles on the same snapshot and configuration whose initial states
differ only in `ignoreNextReading` produce the same `speedOut`,
`dirOut`, `prevSpeed`, `prevDir` and `rps`. -/
theorem c10_ignore_flag_write_only (cfg : Config) (now : Int) (snap : PulseState)
    (st : WindState) (b1 b2 : Bool) :
    ((calcWindSpeedAndDir cfg now snap { st with ignoreNextReading := b1 }).speedOut =
      (calcWindSpeedAndDir cfg now snap { st with ignoreNextReading := b2 }).speedOut ∧
     (calcWindSpeedAndDir cfg now snap { st with ignoreNextReading := b1 }).dirOut =
      (calcWindSpeedAndDir cfg now snap { st with ignoreNextReading := b2 }).dirOut ∧
     (calcWindSpeedAndDir cfg now snap { st with ignoreNextReading := b1 }).prevSpeed =
      (calcWindSpeedAndDir cfg now snap { st with ignoreNextReading := b2 }).prevSpeed ∧
     (calcWindSpeedAndDir cfg now snap { st with ignoreNextReading := b1 }).prevDir =
      (calcWindSpeedAndDir cfg now snap { st with ignoreNextReading := b2 }).prevDir ∧
     (calcWindSpeedAndDir cfg now snap { st with ignoreNextReading := b1 }).rps =
      (calcWindSpeedAndDir cfg now snap { st with ignoreNextReading := b2 }).rps) ∧
    (0 < effSpeedTime now snap →
      checkSpeedDev (calcCmps (100000000 / effSpeedTime now snap))
        (calcCmps (100000000 / effSpeedTime now snap) - st.prevSpeed) = false →
      (calcWindSpeedAndDir cfg now snap st).ignoreNextReading = true) := by
  constructor
  · simp only [calcWindSpeedAndDir, dirStep]
    split_ifs <;> simp
  · intro h1 hA
    rw [calc_speed_reject cfg now snap st h1 hA]

theorem c10_ignore_flag_write_only_witness :
    ((calcWindSpeedAndDir ⟨1, 4, 0⟩ 1000 ⟨0, 0, 1000000, 0⟩
        ⟨7, 9, 5000, 11, false, 0⟩).speedOut =
      (calcWindSpeedAndDir ⟨1, 4, 0⟩ 1000 ⟨0, 0, 1000000, 0⟩
        ⟨7, 9, 5000, 11, true, 0⟩).speedOut) ∧
    (calcWindSpeedAndDir ⟨1, 4, 0⟩ 1000 ⟨0, 0, 1000000, 0⟩
        ⟨7, 9, 5000, 11, false, 0⟩).ignoreNextReading = true := by
  have h := c10_ignore_flag_write_only ⟨1, 4, 0⟩ 1000 ⟨0, 0, 1000000, 0⟩
      ⟨7, 9, 5000, 11, false, 0⟩ false true
  exact ⟨h.1.1, h.2 (by decide) (by decide)⟩

end Wind
